import Mathlib

/-!
Verification development for the micasa laundry monitor.

The JavaScript source is shallowly embedded below.  JS values are modelled
as follows:
* timestamps (`new Date().toISOString()` / `getTime()`) are epoch
  milliseconds (`Int`); the ISO rendering is injective on milliseconds, so
  comparing the integers is equivalent to comparing the rendered strings;
* a JS number that may be `NaN` is `Option Int` (`none` = `NaN`): every
  comparison against `NaN` is false and arithmetic on it stays `NaN`;
* an object field that may be absent (`undefined`) is an `Option`;
  `JSON.stringify` drops `undefined`-valued keys, so structural equality of
  the records below coincides with equality of the stringified JSON the
  server compares;
* strings keep JS truthiness: `undefined` and `""` are falsy.
-/

/-- JS string truthiness: `undefined` and the empty string are falsy. -/
def strTruthy : Option String → Bool
  | none => false
  | some s => decide (s ≠ "")

/-- JS `a || b` on two possibly-undefined string values. -/
def jsStrOr (a b : Option String) : Option String :=
  if strTruthy a then a else b

/-- A JS number that may be `NaN` (`none`). -/
abbrev JSNum := Option Int

/-- JS `x > 0` where `x` may be `NaN` (`NaN > 0` is `false`). -/
def jsGtZero : JSNum → Bool
  | none => false
  | some n => decide (0 < n)

/-- The canonical status vocabulary produced by `mapOperatingState`. -/
inductive Status where
  | running
  | idle
  | complete
  | paused
  | unknown
  deriving DecidableEq, Repr

/-- ASCII lowercase of one character, as `toLowerCase` acts on the ASCII
tokens the vendor emits. -/
def lowerChar (c : Char) : Char :=
  if 65 ≤ c.toNat ∧ c.toNat ≤ 90 then Char.ofNat (c.toNat + 32) else c

/-- `s.toLowerCase()` for the ASCII state tokens. -/
def lowerStr (s : String) : String :=
  String.mk (s.data.map lowerChar)

/-- The `stateMap` lookup table of `mapOperatingState`, applied to the
already-lowercased token; unlisted tokens fall through to `unknown`. -/
def stateMap (s : String) : Status :=
  match s with
  | "run" | "running" | "wash" | "washing" | "rinse" | "rinsing"
  | "spin" | "spinning" | "drying" | "cooling" | "wrinkleprevent"
  | "wrinkle prevent" | "prewash" | "delaystart" | "delay start"
  | "on" | "active" | "working" | "inprogress" | "in progress" => Status.running
  | "ready" | "finished" | "complete" | "end" | "done" => Status.complete
  | "stop" | "stopped" | "off" | "idle" | "none" => Status.idle
  | "pause" | "paused" | "hold" => Status.paused
  | _ => Status.unknown

/-- `mapOperatingState(operatingState)`: falsy input (missing token or the
empty string) yields `unknown`, otherwise the lowercased token is looked up
in `stateMap`. -/
def mapOperatingState : Option String → Status
  | none => Status.unknown
  | some s => if s = "" then Status.unknown else stateMap (lowerStr s)

/-- Observable features of a JS string passed as a completion time:
`hasT` is `s.includes('T')`; `dateMs` is `new Date(s).getTime()` with
`none` for an invalid date (`NaN`); `startsPT` is `s.startsWith('PT')`;
`ptH`/`ptM` are the first `/(\d+)H/` and `/(\d+)M/` matches; `intVal` is
`parseInt(s)` with `none` for `NaN`. -/
structure CTString where
  hasT : Bool
  dateMs : Option Int
  startsPT : Bool
  ptH : Option Nat
  ptM : Option Nat
  intVal : Option Int
  deriving DecidableEq, Repr

/-- A completion-time value as received from the vendor payload:
`null` covers every falsy value (`undefined`, `null`, `0`, `''`),
`num` a non-zero JS number, `str` a non-empty string. -/
inductive CTValue where
  | null
  | num (n : Int)
  | str (s : CTString)
  deriving DecidableEq, Repr

/-- `parseCompletionTime(completionTimeValue)` of the SmartThings service,
with `now` supplied explicitly (epoch ms).  Returns a `JSNum` because the
datetime branch propagates `NaN` when `new Date` fails to parse a string
containing `'T'`.  Mirrors the source order: falsy check, number, string
with `'T'` (datetime with the 24h-future/1h-past staleness window), string
starting with `PT`, `parseInt`, final `return 0`. -/
def parseCompletionTime (nowMs : Int) : CTValue → JSNum
  | CTValue.null => some 0
  | CTValue.num n => some (max 0 n)
  | CTValue.str s =>
    if s.hasT then
      match s.dateMs with
      | none => none
      | some t =>
        let diffMinutes := (t - nowMs).fdiv 60000
        if 24 * 60 < diffMinutes ∨ diffMinutes < -60 then some 0
        else some (max 0 diffMinutes)
    else if s.startsPT then
      some ((s.ptH.getD 0 : Nat) * 60 + (s.ptM.getD 0 : Nat))
    else
      match s.intVal with
      | some n => some (max 0 n)
      | none => some 0

example : parseCompletionTime 0 (CTValue.num 45) = some 45 := by decide
example : parseCompletionTime 0 (CTValue.num (-3)) = some 0 := by decide
example : mapOperatingState (some "Spin") = Status.running := by decide
example : mapOperatingState (some "NONE") = Status.idle := by decide
example : mapOperatingState (some "whatever") = Status.unknown := by decide
example : mapOperatingState none = Status.unknown := by decide

/-- One entry of a `scheduledJobs` attribute value. -/
structure ScheduledJob where
  jobName : String
  timeInMin : Int
  deriving DecidableEq, Repr

/-- A `washerOperatingState` / `dryerOperatingState` capability block
(also used for the `samsungce.`-extended variants).  Each field is the
`.value` reached by the corresponding optional chain in the source; for
`completionTime` and `progress` the outer `Option` is the presence of the
attribute object itself, as the source tests that object before reading
`.value`.  `jobState` is the block's `washerJobState` (resp.
`dryerJobState`) attribute value and `jobPhase` its `washerJobPhase`
(resp. `dryerJobPhase`) attribute value. -/
structure OpState where
  machineState : Option String
  completionTime : Option CTValue
  progress : Option (Option Int)
  jobState : Option String
  jobPhase : Option String
  scheduledJobs : Option (List ScheduledJob)
  operatingState : Option String
  deriving DecidableEq, Repr

/-- An alternative operation field (`main.operation`, `main.operationState`
or `main.machineState`): the source reads
`field.value || field.operation?.value || field.state?.value`. -/
structure AltOp where
  value : Option String
  opValue : Option String
  stateValue : Option String
  deriving DecidableEq, Repr

/-- The `main` component of a device-status payload, restricted to the
fields the service reads.  `washerJobState` and `switchValue` carry the
`.value` of `main.washerJobState` resp. `main.switch.switch` (outer
`Option` = presence of the capability object). -/
structure MainComponent where
  washerOperatingState : Option OpState
  dryerOperatingState : Option OpState
  operation : Option AltOp
  operationState : Option AltOp
  machineState : Option AltOp
  washerJobState : Option (Option String)
  switchValue : Option (Option String)
  samsungceWasherOperatingState : Option OpState
  samsungceDryerOperatingState : Option OpState
  deriving DecidableEq, Repr

/-- The `components` object of a raw payload. -/
structure Components where
  main : Option MainComponent
  deriving DecidableEq, Repr

/-- A raw device-status payload (`response.data`), restricted to the fields
the service reads. -/
structure RawPayload where
  components : Option Components
  deriving DecidableEq, Repr

/-- The `detailedStatus` record built by `extractDetailedStatus`.
`totalRemainingTime` is always assigned, so the record always has at least
one key. -/
structure DetailedStatus where
  currentPhase : Option String
  scheduledJobs : Option (List ScheduledJob)
  machineState : Option String
  totalRemainingTime : JSNum
  deriving DecidableEq, Repr

/-- The `DeviceStatus` record returned by the service.  `progress`,
`detailedStatus`, `rawData` and `error` are absent (`none`) on the error
records, matching the keys each `return` statement writes. -/
structure DeviceStatus where
  deviceId : Option String
  name : String
  status : Status
  remainingTime : JSNum
  progress : Option Int
  lastUpdated : Int
  detailedStatus : Option DetailedStatus
  rawData : Option RawPayload
  error : Option String
  deriving DecidableEq, Repr

/-- First truthy value of a JS `if/else if` chain over optional strings. -/
def firstTruthyStr : List (Option String) → Option String
  | [] => none
  | o :: rest => if strTruthy o then o else firstTruthyStr rest

/-- Steps 1–4 of `parseDeviceStatus`: the status produced by the cascade
washer block → dryer block → alternative operation fields → top-level
`washerJobState` → `switch`, before the smart fallback runs.  The local
`status` variable starts as `'idle'`, so a payload matching no branch stays
`idle`. -/
def statusBefore (m : MainComponent) : Status :=
  match m.washerOperatingState with
  | some w => mapOperatingState w.machineState
  | none =>
    match m.dryerOperatingState with
    | some d => mapOperatingState d.machineState
    | none =>
      match m.operation <|> m.operationState <|> m.machineState with
      | some f => mapOperatingState (jsStrOr f.value (jsStrOr f.opValue f.stateValue))
      | none =>
        match m.washerJobState with
        | some jv => mapOperatingState jv
        | none =>
          match m.switchValue with
          | some sv => if sv = some "on" then Status.running else Status.idle
          | none => Status.idle

/-- The `remainingTime` accumulated by steps 1–4: it is only assigned
inside the washer-block (resp. dryer-block) branch, from that block's
`completionTime` attribute; every other branch leaves the initial `0`. -/
def remainingBefore (nowMs : Int) (m : MainComponent) : JSNum :=
  match m.washerOperatingState with
  | some w =>
    match w.completionTime with
    | some ct => parseCompletionTime nowMs ct
    | none => some 0
  | none =>
    match m.dryerOperatingState with
    | some d =>
      match d.completionTime with
      | some ct => parseCompletionTime nowMs ct
      | none => some 0
    | none => some 0

/-- The source's `hasExplicitStopState` guard of the smart fallback:
`washerOperatingState.machineState.value === 'stop'` or
`dryerOperatingState.machineState.value === 'stop'` or
`washerOperatingState.washerJobState.value === 'none'` — a case-sensitive
check of exactly these three paths. -/
def hasExplicitStopState (m : MainComponent) : Bool :=
  (m.washerOperatingState.bind OpState.machineState == some "stop") ||
  (m.dryerOperatingState.bind OpState.machineState == some "stop") ||
  (m.washerOperatingState.bind OpState.jobState == some "none")

/-- The progress extraction: washer block's `progress.value || 0` if that
attribute object exists, else the dryer block's, else the initial `0`. -/
def progressOf (m : MainComponent) : Int :=
  match m.washerOperatingState.bind OpState.progress with
  | some v => v.getD 0
  | none =>
    match m.dryerOperatingState.bind OpState.progress with
    | some v => v.getD 0
    | none => 0

/-- `extractDetailedStatus(main, remainingTime)`: phase, scheduled jobs and
machine state each try the `samsungce.`-extended washer block, then the
standard washer block, then the extended dryer block, then the standard
dryer block; job states fill `currentPhase` only when no phase was found.
`totalRemainingTime` is always written, so a present `main` always yields a
record. -/
def extractDetailedStatus (main : Option MainComponent) (remaining : JSNum) :
    Option DetailedStatus :=
  match main with
  | none => none
  | some m =>
    let scW := m.samsungceWasherOperatingState
    let w := m.washerOperatingState
    let scD := m.samsungceDryerOperatingState
    let d := m.dryerOperatingState
    let phase0 := firstTruthyStr
      [scW.bind OpState.jobPhase, w.bind OpState.jobPhase,
       scD.bind OpState.jobPhase, d.bind OpState.jobPhase]
    let phase :=
      match phase0 with
      | some p => some p
      | none => firstTruthyStr
          [scW.bind OpState.jobState, w.bind OpState.jobState,
           scD.bind OpState.jobState, d.bind OpState.jobState]
    let jobs := (scW.bind OpState.scheduledJobs) <|> (w.bind OpState.scheduledJobs)
      <|> (scD.bind OpState.scheduledJobs) <|> (d.bind OpState.scheduledJobs)
    let mstate := firstTruthyStr
      [scW.bind OpState.operatingState, w.bind OpState.operatingState,
       scD.bind OpState.operatingState, d.bind OpState.operatingState]
    some { currentPhase := phase, scheduledJobs := jobs,
           machineState := mstate, totalRemainingTime := remaining }

/-- `parseDeviceStatus(deviceStatus, deviceId, deviceName)` of the
SmartThings service, with the wall clock passed as `nowMs`.  When
`components.main` is missing the initial `idle`/`0` values are returned;
otherwise the cascade, the guarded smart fallback and the extractions run
as in the source.  The `catch` branch is unreachable here because every
access in the embedding is total. -/
def parseDeviceStatus (payload : RawPayload) (deviceId name : String)
    (nowMs : Int) : DeviceStatus :=
  match payload.components.bind Components.main with
  | none =>
    { deviceId := some deviceId, name := name, status := Status.idle,
      remainingTime := some 0, progress := some 0, lastUpdated := nowMs,
      detailedStatus := none, rawData := some payload, error := none }
  | some m =>
    let st0 := statusBefore m
    let rem0 := remainingBefore nowMs m
    let fallback := st0 = Status.idle ∧ jsGtZero rem0 = true
    let st1 := if fallback then
        (if hasExplicitStopState m then Status.idle else Status.running)
      else st0
    let rem1 := if fallback then
        (if hasExplicitStopState m then some 0 else rem0)
      else rem0
    { deviceId := some deviceId, name := name, status := st1,
      remainingTime := rem1, progress := some (progressOf m),
      lastUpdated := nowMs,
      detailedStatus := extractDetailedStatus (some m) rem1,
      rawData := some payload, error := none }

/-- The error record built by the `catch` of `getDeviceStatus` (and, with
its fixed message, by the `catch` of `parseDeviceStatus`). -/
def errorDeviceStatus (deviceId : Option String) (name msg : String)
    (nowMs : Int) : DeviceStatus :=
  { deviceId := deviceId, name := name, status := Status.unknown,
    remainingTime := some 0, progress := none, lastUpdated := nowMs,
    detailedStatus := none, rawData := none, error := some msg }

/-- Outcome of the HTTP fetch `this.client.get(...)` for one device. -/
inductive FetchResult where
  | ok (payload : RawPayload)
  | fetchError (msg : String)
  deriving DecidableEq, Repr

/-- `getDeviceStatus(deviceId, deviceName)`: a falsy device id throws
before the fetch and the `catch` returns the configuration-error record; a
failed fetch is caught into an error record carrying the error message; a
successful fetch is parsed.  The function never throws to its caller. -/
def getDeviceStatus (deviceId : Option String) (name : String)
    (res : FetchResult) (nowMs : Int) : DeviceStatus :=
  if strTruthy deviceId = false then
    errorDeviceStatus deviceId name
      ("Device ID for " ++ name ++ " is not configured") nowMs
  else
    match deviceId, res with
    | _, FetchResult.fetchError msg => errorDeviceStatus deviceId name msg nowMs
    | some id, FetchResult.ok payload => parseDeviceStatus payload id name nowMs
    | none, FetchResult.ok payload => parseDeviceStatus payload "" name nowMs

/-- The `lastStatus` snapshot: `{ washer, dryer, lastUpdated }`. -/
structure Snapshot where
  washer : Option DeviceStatus
  dryer : Option DeviceStatus
  lastUpdated : Option Int
  deriving DecidableEq, Repr

/-- `lastStatus` at process start: all three fields `null`. -/
def initialStatus : Snapshot :=
  { washer := none, dryer := none, lastUpdated := none }

/-- The snapshot assembled by every fetch cycle (periodic tick,
`request-update` handler and `/api/status`): both devices fetched through
`getDeviceStatus` and a fresh `lastUpdated` timestamp. -/
def freshSnapshot (wId dId : Option String) (wName dName : String)
    (wRes dRes : FetchResult) (nowMs : Int) : Snapshot :=
  { washer := some (getDeviceStatus wId wName wRes nowMs),
    dryer := some (getDeviceStatus dId dName dRes nowMs),
    lastUpdated := some nowMs }

/-- A wire event emitted by the server: `statusAll`/`errorAll` are
`io.emit` broadcasts to every connected client, `statusTo`/`errorTo` are
`socket.emit` deliveries to one specific socket. -/
inductive Emit where
  | statusAll (s : Snapshot)
  | statusTo (s : Snapshot)
  | errorAll (msg : String)
  | errorTo (msg : String)
  deriving DecidableEq, Repr

/-- One timer tick of `startPeriodicUpdates`, started from stored snapshot
`last`.  `cycleFault` is `some m` when the awaited fetch phase itself threw
(message `m`), landing in the `catch`; otherwise the fresh snapshot is
assembled and `JSON.stringify(lastStatus) !== JSON.stringify(status)` —
structural inequality of the records — decides whether the snapshot is
replaced and broadcast.  Returns the new stored snapshot and the emitted
events. -/
def periodicTick (last : Snapshot) (wId dId : Option String)
    (wName dName : String) (wRes dRes : FetchResult) (nowMs : Int)
    (cycleFault : Option String) : Snapshot × List Emit :=
  match cycleFault with
  | some _ => (last, [Emit.errorAll "Failed to fetch device status"])
  | none =>
    let status := freshSnapshot wId dId wName dName wRes dRes nowMs
    if last = status then (last, [])
    else (status, [Emit.statusAll status])

/-- The `socket.on('request-update')` handler: on success the stored
snapshot is unconditionally replaced and the fresh snapshot is emitted to
the requesting socket; on a fault the requesting socket alone receives the
error event and the stored snapshot is untouched. -/
def requestUpdate (last : Snapshot) (wId dId : Option String)
    (wName dName : String) (wRes dRes : FetchResult) (nowMs : Int)
    (cycleFault : Option String) : Snapshot × List Emit :=
  match cycleFault with
  | some _ => (last, [Emit.errorTo "Failed to fetch device status"])
  | none =>
    let status := freshSnapshot wId dId wName dName wRes dRes nowMs
    (status, [Emit.statusTo status])

/-- The `io.on('connection')` handler: the new socket immediately receives
the stored snapshot when `lastStatus.washer && lastStatus.dryer` is truthy
(both device records present). -/
def onConnection (last : Snapshot) : List Emit :=
  if last.washer.isSome && last.dryer.isSome then [Emit.statusTo last] else []

/-- An HTTP response of the three read endpoints. -/
inductive ApiResponse where
  | okSnapshot (s : Snapshot)
  | okDevice (d : DeviceStatus)
  | serverError (err msg : String)
  deriving DecidableEq, Repr

/-- `GET /api/status`: fetches both devices afresh, assembles a snapshot,
assigns it to `lastStatus` and returns it; a fault yields a 500 body and
leaves the stored snapshot untouched. -/
def apiStatus (last : Snapshot) (wId dId : Option String)
    (wName dName : String) (wRes dRes : FetchResult) (nowMs : Int)
    (cycleFault : Option String) : Snapshot × ApiResponse :=
  match cycleFault with
  | some m => (last, ApiResponse.serverError "Failed to fetch device status" m)
  | none =>
    let status := freshSnapshot wId dId wName dName wRes dRes nowMs
    (status, ApiResponse.okSnapshot status)

/-- `GET /api/washer`: fetches the washer afresh and returns its record;
never touches `lastStatus`. -/
def apiWasher (last : Snapshot) (wId : Option String) (wName : String)
    (wRes : FetchResult) (nowMs : Int) (cycleFault : Option String) :
    Snapshot × ApiResponse :=
  (last,
    match cycleFault with
    | some m => ApiResponse.serverError "Failed to fetch washer status" m
    | none => ApiResponse.okDevice (getDeviceStatus wId wName wRes nowMs))

/-- `GET /api/dryer`: fetches the dryer afresh and returns its record;
never touches `lastStatus`. -/
def apiDryer (last : Snapshot) (dId : Option String) (dName : String)
    (dRes : FetchResult) (nowMs : Int) (cycleFault : Option String) :
    Snapshot × ApiResponse :=
  (last,
    match cycleFault with
    | some m => ApiResponse.serverError "Failed to fetch dryer status" m
    | none => ApiResponse.okDevice (getDeviceStatus dId dName dRes nowMs))

/-- Result of launching the process. -/
inductive StartupResult where
  | serving
  | crashed (msg : String)
  deriving DecidableEq, Repr

/-- The `SmartThingsService` constructor, run when the server module
`require`s the service — before any route is served: a falsy
`SMARTTHINGS_TOKEN` throws. -/
def smartThingsServiceInit (token : Option String) : Except String Unit :=
  if strTruthy token then Except.ok ()
  else Except.error "SMARTTHINGS_TOKEN environment variable is required"

/-- Process startup: the top-level `require('./src/services/smartthings')`
runs the service constructor; if it throws, module loading fails and the
process exits before `server.listen` — so the server never serves without
a token.  (The missing-device-id case, by contrast, only warns at listen
time and degrades per-device records.) -/
def serverStartup (token : Option String) : StartupResult :=
  match smartThingsServiceInit token with
  | Except.ok _ => StartupResult.serving
  | Except.error m => StartupResult.crashed m

/-- After a fault-free tick the stored snapshot always equals the freshly
assembled one: either it was replaced, or the structural comparison found
them already equal. -/
theorem periodicTick_fst (last : Snapshot) (wId dId : Option String)
    (wName dName : String) (wRes dRes : FetchResult) (nowMs : Int) :
    (periodicTick last wId dId wName dName wRes dRes nowMs none).1 =
      freshSnapshot wId dId wName dName wRes dRes nowMs := by
  unfold periodicTick
  by_cases h : last = freshSnapshot wId dId wName dName wRes dRes nowMs
  · simp [h]
  · simp [h]

/-- A payload whose `components` key is absent. -/
def p0 : RawPayload := { components := none }

/-- A payload that wraps one `main` component. -/
def payloadOf (m : MainComponent) : RawPayload :=
  { components := some { main := some m } }

/-- A washer operating-state block reporting machine state `"none"` with a
12-minute completion time. -/
def opStateNone : OpState :=
  { machineState := some "none", completionTime := some (CTValue.num 12),
    progress := none, jobState := none, jobPhase := none,
    scheduledJobs := none, operatingState := none }

/-- A washer operating-state block reporting machine state `"stop"` with a
12-minute completion time. -/
def opStateStop : OpState :=
  { machineState := some "stop", completionTime := some (CTValue.num 12),
    progress := none, jobState := none, jobPhase := none,
    scheduledJobs := none, operatingState := none }

/-- A main component holding only `opStateNone`. -/
def mainNone : MainComponent :=
  { washerOperatingState := some opStateNone, dryerOperatingState := none,
    operation := none, operationState := none, machineState := none,
    washerJobState := none, switchValue := none,
    samsungceWasherOperatingState := none, samsungceDryerOperatingState := none }

/-- A main component holding only `opStateStop`. -/
def mainStop : MainComponent :=
  { washerOperatingState := some opStateStop, dryerOperatingState := none,
    operation := none, operationState := none, machineState := none,
    washerJobState := none, switchValue := none,
    samsungceWasherOperatingState := none, samsungceDryerOperatingState := none }

/-- Claim C1, counterexample.  Two consecutive fault-free ticks see
identical device fetch results (`p0` both times) but run at different
wall-clock instants (1000 ms, then 2000 ms).  The claim says the second
tick broadcasts nothing; in fact both ticks broadcast, because the
compared snapshots embed the fresh `lastUpdated` timestamps (snapshot-level
and per-device) and therefore always differ across instants. -/
theorem c1_counterexample :
    (periodicTick initialStatus (some "w1") (some "d1") "Washer" "Dryer"
        (FetchResult.ok p0) (FetchResult.ok p0) 1000 none).2 =
      [Emit.statusAll (freshSnapshot (some "w1") (some "d1") "Washer" "Dryer"
        (FetchResult.ok p0) (FetchResult.ok p0) 1000)] ∧
    (periodicTick
        (periodicTick initialStatus (some "w1") (some "d1") "Washer" "Dryer"
          (FetchResult.ok p0) (FetchResult.ok p0) 1000 none).1
        (some "w1") (some "d1") "Washer" "Dryer"
        (FetchResult.ok p0) (FetchResult.ok p0) 2000 none).2 =
      [Emit.statusAll (freshSnapshot (some "w1") (some "d1") "Washer" "Dryer"
        (FetchResult.ok p0) (FetchResult.ok p0) 2000)] := by
  decide

/-- Claim C1 (amended).  A fault-free timer tick broadcasts the fresh
snapshot to all subscribers exactly when the fresh snapshot differs by full
structural equality from the stored one — where the comparison includes
the snapshot's and each device record's `lastUpdated` timestamps — and
replaces the stored snapshot in that case; repeating a tick with identical
inputs, the tick timestamp included, broadcasts nothing the second time. -/
theorem c1_tick_change_detection :
    ∀ (last : Snapshot) (wId dId : Option String) (wName dName : String)
      (wRes dRes : FetchResult) (nowMs : Int),
      periodicTick last wId dId wName dName wRes dRes nowMs none =
        (if last = freshSnapshot wId dId wName dName wRes dRes nowMs
         then (last, [])
         else (freshSnapshot wId dId wName dName wRes dRes nowMs,
               [Emit.statusAll (freshSnapshot wId dId wName dName wRes dRes nowMs)])) ∧
      periodicTick
          (periodicTick last wId dId wName dName wRes dRes nowMs none).1
          wId dId wName dName wRes dRes nowMs none =
        ((periodicTick last wId dId wName dName wRes dRes nowMs none).1, []) := by
  intro last wId dId wName dName wRes dRes nowMs
  constructor
  · rfl
  · rw [periodicTick_fst]
    unfold periodicTick
    simp

/-- Claim C2, counterexample.  The payload explicitly asserts the
machine-state token `"none"` (a stop/none machine-state) together with a
12-minute completion time: steps 1–4 yield `idle` with remaining time 12,
yet `parseDeviceStatus` re-classifies to `running` and keeps the 12
minutes, because the explicit-stop guard only recognises the exact string
`'stop'` in `machineState` (and `'none'` only in
`washerOperatingState.washerJobState`). -/
theorem c2_counterexample :
    statusBefore mainNone = Status.idle ∧
    remainingBefore 0 mainNone = some 12 ∧
    (parseDeviceStatus (payloadOf mainNone) "w1" "Washer" 0).status = Status.running ∧
    (parseDeviceStatus (payloadOf mainNone) "w1" "Washer" 0).remainingTime = some 12 := by
  decide

/-- Claim C2 (amended).  When steps 1–4 yield `idle` with a positive
remaining time, the normalizer re-classifies to `running` and keeps the
time, unless the payload matches the source's exact explicit-stop check —
`washerOperatingState.machineState === 'stop'`, or
`dryerOperatingState.machineState === 'stop'`, or
`washerOperatingState.washerJobState === 'none'` (case-sensitive) — in
which case the status stays `idle` and the remaining time is forced to 0. -/
theorem c2_fallback_amended :
    ∀ (m : MainComponent) (id name : String) (nowMs : Int),
      statusBefore m = Status.idle →
      jsGtZero (remainingBefore nowMs m) = true →
      (parseDeviceStatus (payloadOf m) id name nowMs).status =
        (if hasExplicitStopState m then Status.idle else Status.running) ∧
      (parseDeviceStatus (payloadOf m) id name nowMs).remainingTime =
        (if hasExplicitStopState m then some 0 else remainingBefore nowMs m) := by
  intro m id name nowMs h1 h2
  by_cases hstop : hasExplicitStopState m <;>
    simp [parseDeviceStatus, payloadOf, h1, h2, hstop]

/-- Claim C2, witness: a payload with machine state exactly `'stop'` and a
stale 12-minute completion time satisfies the amended rule's hypotheses and
comes out `idle` with remaining time forced to 0. -/
theorem c2_witness :
    statusBefore mainStop = Status.idle ∧
    jsGtZero (remainingBefore 0 mainStop) = true ∧
    (parseDeviceStatus (payloadOf mainStop) "w1" "Washer" 0).status = Status.idle ∧
    (parseDeviceStatus (payloadOf mainStop) "w1" "Washer" 0).remainingTime = some 0 := by
  have h := c2_fallback_amended mainStop "w1" "Washer" 0 (by decide) (by decide)
  exact ⟨by decide, by decide, h.1.trans (by decide), h.2.trans (by decide)⟩

/-- A completion-time string parsing to a datetime 10 minutes after epoch. -/
def s10 : CTString :=
  { hasT := true, dateMs := some 600000, startsPT := false,
    ptH := none, ptM := none, intVal := none }

/-- A completion-time string parsing to a datetime 25 hours after epoch. -/
def s25h : CTString :=
  { hasT := true, dateMs := some 90000000, startsPT := false,
    ptH := none, ptM := none, intVal := none }

/-- A completion-time string parsing to the epoch datetime itself. -/
def sEpoch : CTString :=
  { hasT := true, dateMs := some 0, startsPT := false,
    ptH := none, ptM := none, intVal := none }

/-- Claim C3.  For every datetime input (a string containing `'T'` that
parses to an instant `t`), `parseCompletionTime` returns 0 when the
floored whole-minute difference from `now` exceeds 24 hours into the
future or lies more than 1 hour in the past, and otherwise returns that
floored difference clamped to be non-negative; on such inputs it never
fails and the returned count is never negative. -/
theorem c3_parseCompletionTime_datetime :
    ∀ (nowMs t : Int) (s : CTString), s.hasT = true → s.dateMs = some t →
      parseCompletionTime nowMs (CTValue.str s) =
        some (if 24 * 60 < (t - nowMs).fdiv 60000 ∨ (t - nowMs).fdiv 60000 < -60
              then 0 else max 0 ((t - nowMs).fdiv 60000)) ∧
      ∀ k, parseCompletionTime nowMs (CTValue.str s) = some k → 0 ≤ k := by
  intro nowMs t s hT hD
  have hmain : parseCompletionTime nowMs (CTValue.str s) =
      some (if 24 * 60 < (t - nowMs).fdiv 60000 ∨ (t - nowMs).fdiv 60000 < -60
            then 0 else max 0 ((t - nowMs).fdiv 60000)) := by
    simp only [parseCompletionTime, hT, hD, if_true]
    exact (apply_ite some _ _ _).symm
  refine ⟨hmain, ?_⟩
  intro k hk
  rw [hmain] at hk
  by_cases hc : 24 * 60 < (t - nowMs).fdiv 60000 ∨ (t - nowMs).fdiv 60000 < -60
  · simp [hc] at hk
    omega
  · simp [hc] at hk
    have : (0 : Int) ≤ max 0 ((t - nowMs).fdiv 60000) := le_max_left 0 _
    omega

/-- Claim C3, witness: a datetime 10 minutes ahead yields 10; one 25 hours
ahead yields 0; one 2 hours in the past yields 0. -/
theorem c3_witness :
    parseCompletionTime 0 (CTValue.str s10) = some 10 ∧
    parseCompletionTime 0 (CTValue.str s25h) = some 0 ∧
    parseCompletionTime 7200000 (CTValue.str sEpoch) = some 0 := by
  refine ⟨?_, ?_, ?_⟩
  · exact (c3_parseCompletionTime_datetime 0 600000 s10 rfl rfl).1.trans (by decide)
  · exact (c3_parseCompletionTime_datetime 0 90000000 s25h rfl rfl).1.trans (by decide)
  · exact (c3_parseCompletionTime_datetime 7200000 0 sEpoch rfl rfl).1.trans (by decide)

/-- Claim C4.  A `request-update` message is always answered on the
requesting socket: on success with the freshly assembled snapshot
(no change comparison is made), and only when the fetch phase itself
fails does the socket instead receive the error event. -/
theorem c4_request_update_always_replies :
    ∀ (last : Snapshot) (wId dId : Option String) (wName dName : String)
      (wRes dRes : FetchResult) (nowMs : Int) (m : String),
      requestUpdate last wId dId wName dName wRes dRes nowMs none =
        (freshSnapshot wId dId wName dName wRes dRes nowMs,
         [Emit.statusTo (freshSnapshot wId dId wName dName wRes dRes nowMs)]) ∧
      requestUpdate last wId dId wName dName wRes dRes nowMs (some m) =
        (last, [Emit.errorTo "Failed to fetch device status"]) :=
  fun _ _ _ _ _ _ _ _ _ => ⟨rfl, rfl⟩

/-- Claim C5.  When the washer fetch fails and the dryer fetch succeeds
(both ids configured), the tick completes without throwing: the stored
snapshot becomes the fresh one, whose washer record is the error record —
status `unknown` with `error` carrying the fetch message — while the dryer
record is the fully parsed one (no `error`); the only possible emission is
the regular status broadcast, never an error event. -/
theorem c5_partial_failure :
    ∀ (last : Snapshot) (wid did wName dName msg : String)
      (dPayload : RawPayload) (nowMs : Int),
      wid ≠ "" → did ≠ "" →
      (periodicTick last (some wid) (some did) wName dName
          (FetchResult.fetchError msg) (FetchResult.ok dPayload) nowMs none).1 =
        freshSnapshot (some wid) (some did) wName dName
          (FetchResult.fetchError msg) (FetchResult.ok dPayload) nowMs ∧
      (freshSnapshot (some wid) (some did) wName dName
          (FetchResult.fetchError msg) (FetchResult.ok dPayload) nowMs).washer =
        some (errorDeviceStatus (some wid) wName msg nowMs) ∧
      (errorDeviceStatus (some wid) wName msg nowMs).status = Status.unknown ∧
      (errorDeviceStatus (some wid) wName msg nowMs).error = some msg ∧
      (freshSnapshot (some wid) (some did) wName dName
          (FetchResult.fetchError msg) (FetchResult.ok dPayload) nowMs).dryer =
        some (parseDeviceStatus dPayload did dName nowMs) ∧
      (parseDeviceStatus dPayload did dName nowMs).error = none ∧
      (periodicTick last (some wid) (some did) wName dName
          (FetchResult.fetchError msg) (FetchResult.ok dPayload) nowMs none).2 =
        (if last = freshSnapshot (some wid) (some did) wName dName
            (FetchResult.fetchError msg) (FetchResult.ok dPayload) nowMs
         then []
         else [Emit.statusAll (freshSnapshot (some wid) (some did) wName dName
            (FetchResult.fetchError msg) (FetchResult.ok dPayload) nowMs)]) := by
  intro last wid did wName dName msg dPayload nowMs hw hd
  refine ⟨periodicTick_fst last (some wid) (some did) wName dName
      (FetchResult.fetchError msg) (FetchResult.ok dPayload) nowMs,
    ?_, rfl, rfl, ?_, ?_, ?_⟩
  · simp [freshSnapshot, getDeviceStatus, strTruthy, hw]
  · simp [freshSnapshot, getDeviceStatus, strTruthy, hd]
  · cases hmain : dPayload.components.bind Components.main <;>
      simp [parseDeviceStatus, hmain]
  · unfold periodicTick
    by_cases h : last = freshSnapshot (some wid) (some did) wName dName
        (FetchResult.fetchError msg) (FetchResult.ok dPayload) nowMs <;>
      simp [h]

/-- Claim C5, witness at a concrete failing washer and succeeding dryer. -/
theorem c5_witness :
    (periodicTick initialStatus (some "w1") (some "d1") "Washer" "Dryer"
        (FetchResult.fetchError "boom") (FetchResult.ok p0) 0 none).1 =
      freshSnapshot (some "w1") (some "d1") "Washer" "Dryer"
        (FetchResult.fetchError "boom") (FetchResult.ok p0) 0 ∧
    (freshSnapshot (some "w1") (some "d1") "Washer" "Dryer"
        (FetchResult.fetchError "boom") (FetchResult.ok p0) 0).washer =
      some (errorDeviceStatus (some "w1") "Washer" "boom" 0) ∧
    (errorDeviceStatus (some "w1") "Washer" "boom" 0).status = Status.unknown ∧
    (errorDeviceStatus (some "w1") "Washer" "boom" 0).error = some "boom" ∧
    (freshSnapshot (some "w1") (some "d1") "Washer" "Dryer"
        (FetchResult.fetchError "boom") (FetchResult.ok p0) 0).dryer =
      some (parseDeviceStatus p0 "d1" "Dryer" 0) ∧
    (parseDeviceStatus p0 "d1" "Dryer" 0).error = none ∧
    (periodicTick initialStatus (some "w1") (some "d1") "Washer" "Dryer"
        (FetchResult.fetchError "boom") (FetchResult.ok p0) 0 none).2 =
      (if initialStatus = freshSnapshot (some "w1") (some "d1") "Washer" "Dryer"
          (FetchResult.fetchError "boom") (FetchResult.ok p0) 0
       then []
       else [Emit.statusAll (freshSnapshot (some "w1") (some "d1") "Washer" "Dryer"
          (FetchResult.fetchError "boom") (FetchResult.ok p0) 0)]) :=
  c5_partial_failure initialStatus "w1" "d1" "Washer" "Dryer" "boom" p0 0
    (by decide) (by decide)

/-- Claim C6, counterexample.  A successful `GET /api/status` from the
initial state replaces the stored snapshot: handling the full-snapshot
endpoint does not leave the server's stored state unchanged. -/
theorem c6_counterexample :
    (apiStatus initialStatus (some "w1") (some "d1") "Washer" "Dryer"
        (FetchResult.ok p0) (FetchResult.ok p0) 5 none).1 ≠ initialStatus := by
  decide

/-- Claim C6 (amended).  All three read endpoints trigger a fresh
fetch-normalize cycle and serve its result, not the cached snapshot; the
washer and dryer endpoints leave the stored snapshot unchanged in every
case, but the full-snapshot endpoint additionally overwrites the stored
snapshot with the freshly assembled one on success. -/
theorem c6_endpoints_amended :
    ∀ (last : Snapshot) (wId dId : Option String) (wName dName : String)
      (wRes dRes : FetchResult) (nowMs : Int) (fault : Option String),
      (apiWasher last wId wName wRes nowMs fault).1 = last ∧
      (apiDryer last dId dName dRes nowMs fault).1 = last ∧
      apiWasher last wId wName wRes nowMs none =
        (last, ApiResponse.okDevice (getDeviceStatus wId wName wRes nowMs)) ∧
      apiDryer last dId dName dRes nowMs none =
        (last, ApiResponse.okDevice (getDeviceStatus dId dName dRes nowMs)) ∧
      apiStatus last wId dId wName dName wRes dRes nowMs none =
        (freshSnapshot wId dId wName dName wRes dRes nowMs,
         ApiResponse.okSnapshot (freshSnapshot wId dId wName dName wRes dRes nowMs)) :=
  fun _ _ _ _ _ _ _ _ _ => ⟨rfl, rfl, rfl, rfl, rfl⟩

/-- Claim C7.  The stored snapshot starts all-null at process start (hence
nothing survives a restart), and after every fault-free poll tick and
every fault-free client-requested refresh it equals the freshly assembled
snapshot. -/
theorem c7_snapshot_lifecycle :
    initialStatus = { washer := none, dryer := none, lastUpdated := none } ∧
    (∀ (last : Snapshot) (wId dId : Option String) (wName dName : String)
       (wRes dRes : FetchResult) (nowMs : Int),
       (periodicTick last wId dId wName dName wRes dRes nowMs none).1 =
         freshSnapshot wId dId wName dName wRes dRes nowMs) ∧
    (∀ (last : Snapshot) (wId dId : Option String) (wName dName : String)
       (wRes dRes : FetchResult) (nowMs : Int),
       (requestUpdate last wId dId wName dName wRes dRes nowMs none).1 =
         freshSnapshot wId dId wName dName wRes dRes nowMs) :=
  ⟨rfl, periodicTick_fst, fun _ _ _ _ _ _ _ _ => rfl⟩

/-- Claim C8.  The process serves exactly when the SmartThings token is
set (a falsy token makes the service constructor throw while the server
module loads, so startup crashes before listening), whereas a missing
device identifier only degrades that device's record to `unknown` with a
configuration-error message. -/
theorem c8_token_fatal_id_degrades :
    (∀ token : Option String,
       serverStartup token = StartupResult.serving ↔ strTruthy token = true) ∧
    serverStartup none =
      StartupResult.crashed "SMARTTHINGS_TOKEN environment variable is required" ∧
    (∀ (name : String) (res : FetchResult) (nowMs : Int),
       (getDeviceStatus none name res nowMs).status = Status.unknown ∧
       (getDeviceStatus none name res nowMs).error =
         some ("Device ID for " ++ name ++ " is not configured")) := by
  refine ⟨?_, rfl, ?_⟩
  · intro token
    by_cases h : strTruthy token = true <;>
      simp [serverStartup, smartThingsServiceInit, h]
  · intro name res nowMs
    exact ⟨rfl, rfl⟩

/-- Claim C9.  A connecting subscriber immediately receives the stored
snapshot as its baseline whenever one exists (both device records
present). -/
theorem c9_connection_baseline :
    ∀ last : Snapshot, last.washer.isSome = true → last.dryer.isSome = true →
      onConnection last = [Emit.statusTo last] := by
  intro last h1 h2
  simp [onConnection, h1, h2]

/-- A populated snapshot, as stored after one successful cycle. -/
def snapPop : Snapshot :=
  freshSnapshot (some "w1") (some "d1") "Washer" "Dryer"
    (FetchResult.ok p0) (FetchResult.ok p0) 0

/-- Claim C9, witness at a populated snapshot. -/
theorem c9_witness : onConnection snapPop = [Emit.statusTo snapPop] :=
  c9_connection_baseline snapPop rfl rfl

/-- Claim C10.  A failing timer tick broadcasts the error event to every
client (`io.emit`) while a failing client-requested refresh emits it only
on the requesting socket (`socket.emit`); neither failure path touches the
stored snapshot. -/
theorem c10_error_scoping :
    ∀ (last : Snapshot) (wId dId : Option String) (wName dName : String)
      (wRes dRes : FetchResult) (nowMs : Int) (m : String),
      periodicTick last wId dId wName dName wRes dRes nowMs (some m) =
        (last, [Emit.errorAll "Failed to fetch device status"]) ∧
      requestUpdate last wId dId wName dName wRes dRes nowMs (some m) =
        (last, [Emit.errorTo "Failed to fetch device status"]) :=
  fun _ _ _ _ _ _ _ _ _ => ⟨rfl, rfl⟩
